import Mathlib

/-!
Verification development for the `transfer_learning` repository
(`testes_units/agent/agent.py`, `testes_units/agent/prompt_templates.py`).

The program is embedded shallowly: Python strings are `List Char`,
the filesystem is an association list of paths to contents, the LLM call
is an oracle parameter, and `generate_tests_for_file` additionally returns
the ordered list of side-effect events it performed, so that temporal
claims (no network call after a failed read, no write after a failed
validation) are statements about that trace.
-/

set_option maxRecDepth 10000

/-- Python strings are modelled as lists of characters. -/
abbrev Str := List Char

/-- Whitespace as recognised by Python `str.strip()` with no argument
(Unicode whitespace: ASCII 9-13, 28-31, 32, NEL, NBSP and the Unicode
space separators). -/
def pyIsSpace (c : Char) : Bool :=
  decide (c.toNat ∈ ([9, 10, 11, 12, 13, 28, 29, 30, 31, 32, 0x85, 0xa0, 0x1680] : List Nat))
    || decide (0x2000 ≤ c.toNat ∧ c.toNat ≤ 0x200a)
    || decide (c.toNat ∈ ([0x2028, 0x2029, 0x202f, 0x205f, 0x3000] : List Nat))

/-- Python `s.lstrip()`. -/
def lstrip (s : Str) : Str := s.dropWhile pyIsSpace

/-- Python `s.rstrip()`. -/
def rstrip (s : Str) : Str := (s.reverse.dropWhile pyIsSpace).reverse

/-- Python `s.strip()`. -/
def strip (s : Str) : Str := rstrip (lstrip s)

/-- Python `s.startswith(p)` (second argument is the candidate leading string). -/
def startswith : Str → Str → Bool
  | _, [] => true
  | [], _ :: _ => false
  | c :: s, d :: p => c == d && startswith s p

/-- Python `pat in s` (substring containment test, `containsSub pat s`). -/
def containsSub (pat : Str) : Str → Bool
  | [] => startswith [] pat
  | c :: t => startswith (c :: t) pat || containsSub pat t

/-- Index of the last occurrence of `c` in the string, as in Python `s.rfind(c)`
restricted to the found case (`none` when absent). -/
def rlast (c : Char) : Str → Option Nat
  | [] => none
  | d :: t =>
    match rlast c t with
    | some i => some (i + 1)
    | none => if d == c then some 0 else none

/-- POSIX `os.path.basename`: everything after the last slash. -/
def basename (p : Str) : Str :=
  match rlast '/' p with
  | some i => p.drop (i + 1)
  | none => p

/-- POSIX `os.path.splitext`: split off the extension at the last dot of the
final path component, except that leading dots of the component never start
an extension (CPython `genericpath._splitext`). -/
def splitext (p : Str) : Str × Str :=
  let sepIndex : Int := match rlast '/' p with | some i => (i : Int) | none => -1
  let dotIndex : Int := match rlast '.' p with | some i => (i : Int) | none => -1
  if sepIndex < dotIndex then
    let nameStart := (sepIndex + 1).toNat
    let d := dotIndex.toNat
    if ((p.take d).drop nameStart).any (fun c => !(c == '.')) then
      (p.take d, p.drop d)
    else (p, [])
  else (p, [])

/-- POSIX `os.path.join` for two arguments (CPython `posixpath.join`). -/
def ospJoin (a b : Str) : Str :=
  if startswith b ['/'] then b
  else if a == [] || a.getLast? == some '/' then a ++ b
  else a ++ '/' :: b

/-- Python `s.split(c)` for a one-character separator. -/
def splitOnChar (c : Char) : Str → List Str
  | [] => [[]]
  | d :: t =>
    match splitOnChar c t with
    | [] => [[d]]
    | h :: rest => if d == c then [] :: h :: rest else (d :: h) :: rest

/-- POSIX `os.path.normpath` (CPython `posixpath.normpath`). -/
def normpath (p : Str) : Str :=
  if p == [] then ['.']
  else
    let initialSlashes : Nat :=
      if startswith p ['/'] then
        if startswith p ['/', '/'] && !startswith p ['/', '/', '/'] then 2 else 1
      else 0
    let comps := splitOnChar '/' p
    let newComps := comps.foldl
      (fun acc comp =>
        if comp == [] || comp == ['.'] then acc
        else if !(comp == ['.', '.']) || (initialSlashes == 0 && acc == [])
            || (acc.getLast? == some ['.', '.']) then
          acc ++ [comp]
        else if !(acc == []) then acc.dropLast
        else acc)
      ([] : List Str)
    let res := List.replicate initialSlashes '/' ++ List.intercalate ['/'] newComps
    if res == [] then ['.'] else res

/-- POSIX `os.path.abspath` with the working directory passed explicitly:
join with `cwd` when the path is relative, then normalise. -/
def abspath (cwd p : Str) : Str :=
  if startswith p ['/'] then normpath p else normpath (ospJoin cwd p)

/-- Decidable equality for `Except` results, so that concrete runs can be
checked by evaluation. -/
instance {ε α} [DecidableEq ε] [DecidableEq α] : DecidableEq (Except ε α)
  | Except.ok a, Except.ok b =>
    if h : a = b then Decidable.isTrue (by rw [h]) else Decidable.isFalse (by simp [h])
  | Except.ok _, Except.error _ => Decidable.isFalse (by simp)
  | Except.error _, Except.ok _ => Decidable.isFalse (by simp)
  | Except.error e, Except.error f =>
    if h : e = f then Decidable.isTrue (by rw [h]) else Decidable.isFalse (by simp [h])

/-- Message roles of the two langchain message classes used by the agent
(`SystemMessage`, `HumanMessage`; the latter is the user role). -/
inductive Role
  | system
  | human
deriving DecidableEq

/-- A chat message: a role together with its text content. -/
structure Message where
  role : Role
  content : Str
deriving DecidableEq

/-- Side effects performed by `generate_tests_for_file`, in order. -/
inductive Event
  | readFile (path : Str)
  | llmCall (msgs : List Message)
  | makedirs (dir : Str)
  | writeFile (path : Str) (content : Str)
deriving DecidableEq

/-- The exceptions `generate_tests_for_file` can raise: the uncaught
read failure from `open`, and the two explicit `ValueError`s
("LLM output did not start with ... — aborting" and
"No test functions detected in LLM output"). -/
inductive GenError
  | readFailed (path : Str)
  | missingImportPytest
  | missingTestFunction
deriving DecidableEq

/-- The error raised at module import time
(`RuntimeError("Configure AZURE_OPENAI_* env vars or .env file")`). -/
inductive InitError
  | configMissing
deriving DecidableEq

/-- The filesystem: files as a path-to-content association list
(first match wins), plus the set of directories created. -/
structure FS where
  files : List (Str × Str)
  dirs : List Str
deriving DecidableEq

/-- Reading a file: `open(p).read()` succeeds exactly when a file is present. -/
def FS.read (fs : FS) (p : Str) : Option Str :=
  (fs.files.find? (fun kv => kv.1 == p)).map Prod.snd

/-- Writing a file with mode "w": create or truncate-and-overwrite. -/
def FS.write (fs : FS) (p c : Str) : FS :=
  ⟨(p, c) :: fs.files.filter (fun kv => !(kv.1 == p)), fs.dirs⟩

/-- Python `os.makedirs(d, exist_ok=True)`. -/
def FS.makedirs (fs : FS) (d : Str) : FS :=
  ⟨fs.files, if fs.dirs.contains d then fs.dirs else d :: fs.dirs⟩

/-- Configuration carried by the `AzureChatOpenAI` client built at module
level (agent.py lines 17-24), with the keyword arguments in source order. -/
structure AzureChatOpenAI where
  deployment_name : Str
  openai_api_base : Str
  openai_api_key : Str
  temperature : ℚ
  max_tokens : Nat
  request_timeout : Nat
deriving DecidableEq

/-- The module-level `llm` client value as a function of the three
environment values (agent.py lines 17-24). -/
def llm (endpoint key deploy : Str) : AzureChatOpenAI :=
  ⟨deploy, endpoint, key, 0, 1000, 120⟩

/-- Python truthiness of an `os.getenv` result: `None` and the empty
string are falsy, all other strings truthy. -/
def pyTruthyStr : Option Str → Bool
  | none => false
  | some s => !(s == [])

/-- Module import of agent.py, lines 9-24: read the three `AZURE_OPENAI_*`
environment variables, raise `RuntimeError` unless all three are truthy,
then construct the `llm` client. -/
def agentModuleInit (env : String → Option Str) : Except InitError AzureChatOpenAI :=
  let e := env "AZURE_OPENAI_ENDPOINT"
  let k := env "AZURE_OPENAI_KEY"
  let d := env "AZURE_OPENAI_DEPLOYMENT"
  if pyTruthyStr e && pyTruthyStr k && pyTruthyStr d then
    Except.ok (llm (e.getD []) (k.getD []) (d.getD []))
  else Except.error InitError.configMissing

/-- The text of `PROMPT_HEADER` as laid out in prompt_templates.py between
the outer pair of triple quotes, i.e. the template the code evidently
intends (the Python literal itself is malformed: the inner triple quote on
the `\"\"\"\n{source}\n\"\"\"` line terminates the string early, see the
C2 theorem below). Apostrophes are written as `\x27` escapes. -/
def PROMPT_HEADER : Str :=
  ("        You are an automated test generator for Python functions. Generate a single pure Python file content that is a pytest test module.\n\nRequirements:\n- The file must start with exactly: import pytest\n- Use only valid python code (no surrounding markdown or explanation).\n- Create tests for the provided source. For each public function in the source produce:\n  - at least one \x27success\x27 test: def test_<func>_success(): ...\n  - at least one \x27failure\x27 test: def test_<func>_failure(): ...\n- Use clear, deterministic asserts (avoid random data).\n- When creating inputs, prefer small fixed examples and include edge-case for failure (e.g., invalid type, zero-division, ValueError).\n- Name the file content such that it can be written to test_<module>.py.\n- Keep tests self-contained: import the module under test using its module name (e.g., import examples.math_ops as mod).\n- Do not import or call any network resources.\n- Output ONLY the Python file content.\n\nSource file path: {src_path}\nSource code:\n\"\"\"\\n{source}\\n\"\"\"\n").toList

/-- Split on the first occurrence of three consecutive double-quote
characters, i.e. where the Python lexer would close a `\"\"\"` literal:
returns the text before the triple quote and the text after it. -/
def splitAtTripleQuoteAux (acc : Str) : Str → Option (Str × Str)
  | q1 :: q2 :: q3 :: t =>
    if q1 == '\"' && q2 == '\"' && q3 == '\"' then some (acc.reverse, t)
    else splitAtTripleQuoteAux (q1 :: acc) (q2 :: q3 :: t)
  | _ => none

/-- Split a string at its first triple quote. -/
def splitAtTripleQuote (s : Str) : Option (Str × Str) :=
  splitAtTripleQuoteAux [] s

/-- The part of the `PROMPT_HEADER` literal the Python lexer actually
parses: everything up to the first inner triple quote. -/
def pyParsedPromptLiteral : Str :=
  ((splitAtTripleQuote PROMPT_HEADER).getD ([], [])).1

/-- The characters the Python lexer sees right after the early closing
triple quote of the `PROMPT_HEADER` literal. -/
def pyAfterPromptLiteral : Str :=
  ((splitAtTripleQuote PROMPT_HEADER).getD ([], [])).2

/-- Field lookup for `str.format(src_path=..., source=...)`. -/
def formatLookup (srcPathVal sourceVal : Str) (field : Str) : Option Str :=
  if field == "src_path".toList then some srcPathVal
  else if field == "source".toList then some sourceVal
  else none

/-- Scanner for Python `str.format`: literal text mode (`none`) and
field-name mode (`some acc`). Doubled braces are escapes; a replacement
field is substituted verbatim, without rescanning the substituted value;
an unknown field name or a stray brace is an error (`none` result).
Format specs and conversions are not modelled: the template under
verification uses only plain named fields. -/
def pyFormatGo (lookup : Str → Option Str) : Option Str → Str → Option Str
  | none, [] => some []
  | some _, [] => none
  | some acc, c :: t =>
    if c == '\x7d' then
      match lookup acc with
      | some v => (pyFormatGo lookup none t).map (fun r => v ++ r)
      | none => none
    else pyFormatGo lookup (some (acc ++ [c])) t
  | none, [c] =>
    if c == '\x7b' || c == '\x7d' then none else some [c]
  | none, c :: d :: t =>
    if c == '\x7b' then
      (if d == '\x7b' then (pyFormatGo lookup none t).map (fun r => '\x7b' :: r)
       else pyFormatGo lookup (some []) (d :: t))
    else if c == '\x7d' then
      (if d == '\x7d' then (pyFormatGo lookup none t).map (fun r => '\x7d' :: r)
       else none)
    else (pyFormatGo lookup none (d :: t)).map (fun r => c :: r)

/-- Python `tmpl.format(src_path=srcPathVal, source=sourceVal)`. -/
def pyFormat (tmpl srcPathVal sourceVal : Str) : Option Str :=
  pyFormatGo (formatLookup srcPathVal sourceVal) none tmpl

/-- The prompt built at agent.py line 35:
`PROMPT_HEADER.format(src_path=src_path, source=source)`, using the
template text as laid out in the source file. On this concrete template
with both fields supplied the format never fails, so the default is inert. -/
def buildPrompt (srcAbs source : Str) : Str :=
  (pyFormat PROMPT_HEADER srcAbs source).getD []

/-- Content of the fixed `SystemMessage` (agent.py line 36). -/
def systemMessageText : Str :=
  "You are an expert Python developer and pytest author.".toList

/-- The two ordered messages passed to `llm([sys_msg, user_msg])`
(agent.py lines 36-39). -/
def agentMessages (srcAbs source : Str) : List Message :=
  [⟨Role.system, systemMessageText⟩, ⟨Role.human, buildPrompt srcAbs source⟩]

/-- The literal checked by `content.startswith("import pytest")`. -/
def importPytestLit : Str := "import pytest".toList

/-- The literal checked by `"def test_" in content`. -/
def defTestLit : Str := "def test_".toList

/-- The output file name `f"test_{module_name}.py"` (agent.py line 50). -/
def testFileName (module_name : Str) : Str :=
  "test_".toList ++ module_name ++ ".py".toList

/-- Shallow embedding of `generate_tests_for_file(src_path, out_dir)`
(agent.py lines 26-55). The working directory `cwd` makes `os.path.abspath`
explicit and `oracle` stands for the network call `llm([...])` returning
`resp.content`. The result pairs the Python return value (or raised
exception) with the ordered trace of side effects. In the Python source
`out_dir` defaults to "."; callers here always pass it explicitly. -/
def generate_tests_for_file (cwd : Str) (oracle : List Message → Str) (fs : FS)
    (src_path : Str) (out_dir : Str) : Except GenError (FS × Str) × List Event :=
  let srcAbs := abspath cwd src_path
  let module_name := (splitext (basename srcAbs)).1
  match FS.read fs srcAbs with
  | none => (Except.error (GenError.readFailed srcAbs), [Event.readFile srcAbs])
  | some source =>
    let msgs := agentMessages srcAbs source
    let content := strip (oracle msgs)
    let trace := [Event.readFile srcAbs, Event.llmCall msgs]
    if !startswith content importPytestLit then
      (Except.error GenError.missingImportPytest, trace)
    else if !containsSub defTestLit content then
      (Except.error GenError.missingTestFunction, trace)
    else
      let out_fname := ospJoin out_dir (testFileName module_name)
      let fs2 := FS.makedirs fs out_dir
      let fs3 := FS.write fs2 out_fname (content ++ ['\n'])
      (Except.ok (fs3, out_fname),
        trace ++ [Event.makedirs out_dir, Event.writeFile out_fname (content ++ ['\n'])])

/-- The output path `os.path.join(out_dir, f"test_{module_name}.py")`
computed by a call with the given arguments. -/
def genOutPath (cwd src_path out_dir : Str) : Str :=
  ospJoin out_dir (testFileName ((splitext (basename (abspath cwd src_path))).1))

/-- The filesystem after a successful call that wrote trimmed response
`content`: directory created, then the file written. -/
def genOutFS (cwd src_path out_dir content : Str) (fs : FS) : FS :=
  FS.write (FS.makedirs fs out_dir) (genOutPath cwd src_path out_dir) (content ++ ['\n'])

theorem FS.read_write (fs : FS) (p c : Str) : FS.read (FS.write fs p c) p = some c := by
  simp [FS.read, FS.write, List.find?]

/-- On the success path (file readable, both checks pass) the call is the
full pipeline: read, model call, makedirs, write, return the joined path. -/
theorem generate_success_eq (cwd src_path out_dir source : Str)
    (oracle : List Message → Str) (fs : FS)
    (hread : FS.read fs (abspath cwd src_path) = some source)
    (hp : startswith (strip (oracle (agentMessages (abspath cwd src_path) source)))
      importPytestLit = true)
    (ht : containsSub defTestLit (strip (oracle (agentMessages (abspath cwd src_path) source)))
      = true) :
    generate_tests_for_file cwd oracle fs src_path out_dir =
      (Except.ok
        (genOutFS cwd src_path out_dir
          (strip (oracle (agentMessages (abspath cwd src_path) source))) fs,
         genOutPath cwd src_path out_dir),
       [Event.readFile (abspath cwd src_path),
        Event.llmCall (agentMessages (abspath cwd src_path) source),
        Event.makedirs out_dir,
        Event.writeFile (genOutPath cwd src_path out_dir)
          (strip (oracle (agentMessages (abspath cwd src_path) source)) ++ ['\n'])]) := by
  simp [generate_tests_for_file, hread, hp, ht, genOutFS, genOutPath]

/-- When the trimmed response does not start with `import pytest` the call
raises the first `ValueError` right after the model call. -/
theorem generate_startfail_eq (cwd src_path out_dir source : Str)
    (oracle : List Message → Str) (fs : FS)
    (hread : FS.read fs (abspath cwd src_path) = some source)
    (hp : startswith (strip (oracle (agentMessages (abspath cwd src_path) source)))
      importPytestLit = false) :
    generate_tests_for_file cwd oracle fs src_path out_dir =
      (Except.error GenError.missingImportPytest,
       [Event.readFile (abspath cwd src_path),
        Event.llmCall (agentMessages (abspath cwd src_path) source)]) := by
  simp [generate_tests_for_file, hread, hp]

/-- When the trimmed response passes the leading check but lacks
`def test_` the call raises the second `ValueError`. -/
theorem generate_substrfail_eq (cwd src_path out_dir source : Str)
    (oracle : List Message → Str) (fs : FS)
    (hread : FS.read fs (abspath cwd src_path) = some source)
    (hp : startswith (strip (oracle (agentMessages (abspath cwd src_path) source)))
      importPytestLit = true)
    (ht : containsSub defTestLit (strip (oracle (agentMessages (abspath cwd src_path) source)))
      = false) :
    generate_tests_for_file cwd oracle fs src_path out_dir =
      (Except.error GenError.missingTestFunction,
       [Event.readFile (abspath cwd src_path),
        Event.llmCall (agentMessages (abspath cwd src_path) source)]) := by
  simp [generate_tests_for_file, hread, hp, ht]

/-- When the source file cannot be read the call stops at the read. -/
theorem generate_readfail_eq (cwd src_path out_dir : Str)
    (oracle : List Message → Str) (fs : FS)
    (hread : FS.read fs (abspath cwd src_path) = none) :
    generate_tests_for_file cwd oracle fs src_path out_dir =
      (Except.error (GenError.readFailed (abspath cwd src_path)),
       [Event.readFile (abspath cwd src_path)]) := by
  simp [generate_tests_for_file, hread]

/-- C1: whenever the source read succeeds and the model response, once
stripped of surrounding whitespace, starts with `import pytest` and
contains `def test_`, the call returns `out_dir` joined with
`test_<module_name>.py` (module name: base name of the resolved source
path with its extension stripped), and the file at that path afterwards
holds exactly the stripped response plus one trailing newline. -/
theorem C1_success_returns_path_and_writes_file (cwd src_path out_dir source content : Str)
    (oracle : List Message → Str) (fs : FS)
    (hread : FS.read fs (abspath cwd src_path) = some source)
    (hcontent : content = strip (oracle (agentMessages (abspath cwd src_path) source)))
    (hp : startswith content importPytestLit = true)
    (ht : containsSub defTestLit content = true) :
    ∃ fs2 : FS,
      (generate_tests_for_file cwd oracle fs src_path out_dir).1 =
        Except.ok (fs2,
          ospJoin out_dir (testFileName ((splitext (basename (abspath cwd src_path))).1))) ∧
      FS.read fs2 (ospJoin out_dir (testFileName ((splitext (basename (abspath cwd src_path))).1))) =
        some (content ++ ['\n']) := by
  subst hcontent
  refine ⟨genOutFS cwd src_path out_dir
    (strip (oracle (agentMessages (abspath cwd src_path) source))) fs, ?_, ?_⟩
  · rw [generate_success_eq cwd src_path out_dir source oracle fs hread hp ht]
    rfl
  · exact FS.read_write (FS.makedirs fs out_dir) (genOutPath cwd src_path out_dir) _

/-- Example working directory for concrete runs. -/
def exCwd : Str := "/w".toList

/-- Example relative source path. -/
def exSrc : Str := "m.py".toList

/-- Example output directory (the Python default "."). -/
def exOut : Str := ".".toList

/-- Example source file content. -/
def exSource : Str := "x = 1".toList

/-- Example filesystem holding only the source file. -/
def exFS : FS := ⟨[("/w/m.py".toList, exSource)], []⟩

/-- Example compliant model response. -/
def exRespGood : Str := "import pytest\ndef test_a(): pass".toList

/-- Example oracle that always returns the compliant response. -/
def exOracleGood : List Message → Str := fun _ => exRespGood

theorem C1_witness :
    ∃ fs2 : FS,
      (generate_tests_for_file exCwd exOracleGood exFS exSrc exOut).1 =
        Except.ok (fs2,
          ospJoin exOut (testFileName ((splitext (basename (abspath exCwd exSrc))).1))) ∧
      FS.read fs2 (ospJoin exOut (testFileName ((splitext (basename (abspath exCwd exSrc))).1))) =
        some (exRespGood ++ ['\n']) :=
  C1_success_returns_path_and_writes_file exCwd exSrc exOut exSource exRespGood exOracleGood exFS
    (by decide) (by decide) (by decide) (by decide)

/-- Example response failing the leading-literal check. -/
def exRespNoImport : Str := "print(1)\ndef test_a(): pass".toList

/-- Example oracle returning `exRespNoImport`. -/
def exOracleNoImport : List Message → Str := fun _ => exRespNoImport

/-- Example response passing the leading check but with no test function. -/
def exRespNoTest : Str := "import pytest\nx = 1".toList

/-- Example oracle returning `exRespNoTest`. -/
def exOracleNoTest : List Message → Str := fun _ => exRespNoTest

/-- Example empty filesystem (source file absent). -/
def exFSEmpty : FS := ⟨[], []⟩

/-- C4: when the stripped model response does not begin with the literal
`import pytest`, the call raises the content-validation `ValueError` and
its effect trace is exactly the read and the model call: it contains no
`makedirs` and no `writeFile` event, so no file or directory is created
or modified on this failure path. -/
theorem C4_bad_leading_literal_raises_no_write (cwd src_path out_dir source : Str)
    (oracle : List Message → Str) (fs : FS)
    (hread : FS.read fs (abspath cwd src_path) = some source)
    (hp : startswith (strip (oracle (agentMessages (abspath cwd src_path) source)))
      importPytestLit = false) :
    (generate_tests_for_file cwd oracle fs src_path out_dir).1 =
      Except.error GenError.missingImportPytest ∧
    (generate_tests_for_file cwd oracle fs src_path out_dir).2 =
      [Event.readFile (abspath cwd src_path),
       Event.llmCall (agentMessages (abspath cwd src_path) source)] := by
  have heq := generate_startfail_eq cwd src_path out_dir source oracle fs hread hp
  exact ⟨by rw [heq], by rw [heq]⟩

theorem C4_witness :
    (generate_tests_for_file exCwd exOracleNoImport exFS exSrc exOut).1 =
      Except.error GenError.missingImportPytest ∧
    (generate_tests_for_file exCwd exOracleNoImport exFS exSrc exOut).2 =
      [Event.readFile (abspath exCwd exSrc),
       Event.llmCall (agentMessages (abspath exCwd exSrc) exSource)] :=
  C4_bad_leading_literal_raises_no_write exCwd exSrc exOut exSource exOracleNoImport exFS
    (by decide) (by decide)

/-- C5: when the stripped model response begins with `import pytest` but
contains no occurrence of `def test_`, the call raises the second
content-validation `ValueError`; the effect trace is again exactly the
read and the model call, so no output file is written. -/
theorem C5_no_test_function_raises_no_write (cwd src_path out_dir source : Str)
    (oracle : List Message → Str) (fs : FS)
    (hread : FS.read fs (abspath cwd src_path) = some source)
    (hp : startswith (strip (oracle (agentMessages (abspath cwd src_path) source)))
      importPytestLit = true)
    (ht : containsSub defTestLit (strip (oracle (agentMessages (abspath cwd src_path) source)))
      = false) :
    (generate_tests_for_file cwd oracle fs src_path out_dir).1 =
      Except.error GenError.missingTestFunction ∧
    (generate_tests_for_file cwd oracle fs src_path out_dir).2 =
      [Event.readFile (abspath cwd src_path),
       Event.llmCall (agentMessages (abspath cwd src_path) source)] := by
  have heq := generate_substrfail_eq cwd src_path out_dir source oracle fs hread hp ht
  exact ⟨by rw [heq], by rw [heq]⟩

theorem C5_witness :
    (generate_tests_for_file exCwd exOracleNoTest exFS exSrc exOut).1 =
      Except.error GenError.missingTestFunction ∧
    (generate_tests_for_file exCwd exOracleNoTest exFS exSrc exOut).2 =
      [Event.readFile (abspath exCwd exSrc),
       Event.llmCall (agentMessages (abspath exCwd exSrc) exSource)] :=
  C5_no_test_function_raises_no_write exCwd exSrc exOut exSource exOracleNoTest exFS
    (by decide) (by decide) (by decide)

/-- C6: when the source file cannot be read, the call fails with the I/O
error and its effect trace is exactly the attempted read: in particular it
contains no `llmCall` event, so the model is never invoked after a failed
read. -/
theorem C6_read_failure_stops_before_model_call (cwd src_path out_dir : Str)
    (oracle : List Message → Str) (fs : FS)
    (hread : FS.read fs (abspath cwd src_path) = none) :
    (generate_tests_for_file cwd oracle fs src_path out_dir).1 =
      Except.error (GenError.readFailed (abspath cwd src_path)) ∧
    (generate_tests_for_file cwd oracle fs src_path out_dir).2 =
      [Event.readFile (abspath cwd src_path)] := by
  have heq := generate_readfail_eq cwd src_path out_dir oracle fs hread
  exact ⟨by rw [heq], by rw [heq]⟩

theorem C6_witness :
    (generate_tests_for_file exCwd exOracleGood exFSEmpty exSrc exOut).1 =
      Except.error (GenError.readFailed (abspath exCwd exSrc)) ∧
    (generate_tests_for_file exCwd exOracleGood exFSEmpty exSrc exOut).2 =
      [Event.readFile (abspath exCwd exSrc)] :=
  C6_read_failure_stops_before_model_call exCwd exSrc exOut exOracleGood exFSEmpty (by decide)

/-- C7: every model invocation the call performs carries exactly the two
ordered messages — the fixed system instruction followed by the built
prompt as the human/user message — and the client configuration built at
module level has temperature 0, max_tokens 1000 and request_timeout 120. -/
theorem C7_model_call_messages_and_config (cwd src_path out_dir e k d : Str)
    (oracle : List Message → Str) (fs : FS) (msgs : List Message)
    (hmem : Event.llmCall msgs ∈ (generate_tests_for_file cwd oracle fs src_path out_dir).2) :
    (llm e k d).temperature = 0 ∧ (llm e k d).max_tokens = 1000 ∧
    (llm e k d).request_timeout = 120 ∧
    ∃ source, FS.read fs (abspath cwd src_path) = some source ∧
      msgs = [⟨Role.system, systemMessageText⟩,
              ⟨Role.human, buildPrompt (abspath cwd src_path) source⟩] := by
  refine ⟨rfl, rfl, rfl, ?_⟩
  rcases hr : FS.read fs (abspath cwd src_path) with _ | source
  · rw [generate_readfail_eq cwd src_path out_dir oracle fs hr] at hmem
    simp at hmem
  · have hm : msgs = agentMessages (abspath cwd src_path) source := by
      cases hp : startswith (strip (oracle (agentMessages (abspath cwd src_path) source)))
          importPytestLit with
      | false =>
        rw [generate_startfail_eq cwd src_path out_dir source oracle fs hr hp] at hmem
        simpa using hmem
      | true =>
        cases ht : containsSub defTestLit
            (strip (oracle (agentMessages (abspath cwd src_path) source))) with
        | false =>
          rw [generate_substrfail_eq cwd src_path out_dir source oracle fs hr hp ht] at hmem
          simpa using hmem
        | true =>
          rw [generate_success_eq cwd src_path out_dir source oracle fs hr hp ht] at hmem
          simpa using hmem
    exact ⟨source, rfl, by rw [hm]; rfl⟩

theorem C7_witness :
    (llm "https://e".toList "key".toList "dep".toList).temperature = 0 ∧
    (llm "https://e".toList "key".toList "dep".toList).max_tokens = 1000 ∧
    (llm "https://e".toList "key".toList "dep".toList).request_timeout = 120 ∧
    ∃ source, FS.read exFS (abspath exCwd exSrc) = some source ∧
      agentMessages (abspath exCwd exSrc) exSource =
        [⟨Role.system, systemMessageText⟩,
         ⟨Role.human, buildPrompt (abspath exCwd exSrc) source⟩] :=
  C7_model_call_messages_and_config exCwd exSrc exOut
    "https://e".toList "key".toList "dep".toList exOracleGood exFS
    (agentMessages (abspath exCwd exSrc) exSource)
    (by rw [generate_success_eq exCwd exSrc exOut exSource exOracleGood exFS
        (by decide) (by decide) (by decide)]
        simp)

/-- C8: re-invoking with the same source path and output directory targets
the same output path and overwrites the previous file: after a first
successful run writing trimmed content c1 and a second successful run
writing trimmed content c2, both runs return the same path, and the file
at that path holds c1 plus newline after the first run and c2 plus newline
after the second — last write wins, nothing accumulates. -/
theorem C8_reinvocation_overwrites_same_path (cwd src_path out_dir s1 s2 c1 c2 : Str)
    (o1 o2 : List Message → Str) (fs : FS)
    (h1read : FS.read fs (abspath cwd src_path) = some s1)
    (h1c : c1 = strip (o1 (agentMessages (abspath cwd src_path) s1)))
    (h1p : startswith c1 importPytestLit = true)
    (h1t : containsSub defTestLit c1 = true)
    (h2read : FS.read (genOutFS cwd src_path out_dir c1 fs) (abspath cwd src_path) = some s2)
    (h2c : c2 = strip (o2 (agentMessages (abspath cwd src_path) s2)))
    (h2p : startswith c2 importPytestLit = true)
    (h2t : containsSub defTestLit c2 = true) :
    (generate_tests_for_file cwd o1 fs src_path out_dir).1 =
      Except.ok (genOutFS cwd src_path out_dir c1 fs, genOutPath cwd src_path out_dir) ∧
    (generate_tests_for_file cwd o2 (genOutFS cwd src_path out_dir c1 fs) src_path out_dir).1 =
      Except.ok (genOutFS cwd src_path out_dir c2 (genOutFS cwd src_path out_dir c1 fs),
        genOutPath cwd src_path out_dir) ∧
    FS.read (genOutFS cwd src_path out_dir c1 fs) (genOutPath cwd src_path out_dir) =
      some (c1 ++ ['\n']) ∧
    FS.read (genOutFS cwd src_path out_dir c2 (genOutFS cwd src_path out_dir c1 fs))
      (genOutPath cwd src_path out_dir) = some (c2 ++ ['\n']) := by
  subst h1c
  subst h2c
  refine ⟨?_, ?_, ?_, ?_⟩
  · rw [generate_success_eq cwd src_path out_dir s1 o1 fs h1read h1p h1t]
  · rw [generate_success_eq cwd src_path out_dir s2 o2 _ h2read h2p h2t]
  · exact FS.read_write (FS.makedirs fs out_dir) (genOutPath cwd src_path out_dir) _
  · exact FS.read_write (FS.makedirs (genOutFS cwd src_path out_dir _ fs) out_dir)
      (genOutPath cwd src_path out_dir) _

/-- Example second output directory, distinct from the source location. -/
def exOut2 : Str := "/o".toList

/-- Example second compliant model response, different from the first. -/
def exRespGood2 : Str := "import pytest\ndef test_b(): pass".toList

/-- Example oracle returning the second compliant response. -/
def exOracleGood2 : List Message → Str := fun _ => exRespGood2

theorem C8_witness :
    (generate_tests_for_file exCwd exOracleGood exFS exSrc exOut2).1 =
      Except.ok (genOutFS exCwd exSrc exOut2 exRespGood exFS, genOutPath exCwd exSrc exOut2) ∧
    (generate_tests_for_file exCwd exOracleGood2 (genOutFS exCwd exSrc exOut2 exRespGood exFS)
        exSrc exOut2).1 =
      Except.ok (genOutFS exCwd exSrc exOut2 exRespGood2
        (genOutFS exCwd exSrc exOut2 exRespGood exFS), genOutPath exCwd exSrc exOut2) ∧
    FS.read (genOutFS exCwd exSrc exOut2 exRespGood exFS) (genOutPath exCwd exSrc exOut2) =
      some (exRespGood ++ ['\n']) ∧
    FS.read (genOutFS exCwd exSrc exOut2 exRespGood2
        (genOutFS exCwd exSrc exOut2 exRespGood exFS)) (genOutPath exCwd exSrc exOut2) =
      some (exRespGood2 ++ ['\n']) :=
  C8_reinvocation_overwrites_same_path exCwd exSrc exOut2 exSource exSource
    exRespGood exRespGood2 exOracleGood exOracleGood2 exFS
    (by decide) (by decide) (by decide) (by decide)
    (by decide) (by decide) (by decide) (by decide)

/-- Example response that starts with `import pytest` only as a character
prefix (the first line is `import pytest_mock`) and whose only occurrence
of `def test_` sits inside a comment. -/
def exRespImplicit : Str :=
  "import pytest_mock\n# note: def test_ appears only in this comment\nx = 1".toList

/-- Example oracle returning `exRespImplicit`. -/
def exOracleImplicit : List Message → Str := fun _ => exRespImplicit

/-- C9: the two response checks are plain character tests, not line or
syntax tests: a response whose first line is `import pytest_mock` passes
the leading check (its first line is not the literal `import pytest`), a
`def test_` occurring only inside a comment passes the substring check,
and the call then succeeds and writes the file. -/
theorem C9_checks_are_plain_string_tests :
    startswith (strip exRespImplicit) importPytestLit = true ∧
    ¬ (strip exRespImplicit).takeWhile (fun c => !(c == '\n')) = importPytestLit ∧
    containsSub defTestLit (strip exRespImplicit) = true ∧
    (generate_tests_for_file exCwd exOracleImplicit exFS exSrc exOut).1 =
      Except.ok (genOutFS exCwd exSrc exOut (strip exRespImplicit) exFS,
        "./test_m.py".toList) := by
  decide

/-- C10: the returned output path is always `out_dir` joined with
`test_<module_name>.py` where the module name strips only the final
extension of the base name of the resolved source path: a dotless base
name is used whole, `archive.tar.gz` gives `test_archive.tar.py`, and a
source already named `test_x.py` gives `test_test_x.py`. -/
theorem C10_module_name_strips_final_extension (cwd src_path out_dir p : Str)
    (oracle : List Message → Str) (fs fs2 : FS)
    (h : (generate_tests_for_file cwd oracle fs src_path out_dir).1 = Except.ok (fs2, p)) :
    p = ospJoin out_dir (testFileName ((splitext (basename (abspath cwd src_path))).1)) ∧
    testFileName ((splitext (basename "/w/archive.tar.gz".toList)).1) =
      "test_archive.tar.py".toList ∧
    testFileName ((splitext (basename "/w/README".toList)).1) = "test_README.py".toList ∧
    testFileName ((splitext (basename "/w/test_x.py".toList)).1) = "test_test_x.py".toList := by
  refine ⟨?_, by decide, by decide, by decide⟩
  rcases hr : FS.read fs (abspath cwd src_path) with _ | source
  · rw [generate_readfail_eq cwd src_path out_dir oracle fs hr] at h
    simp at h
  · cases hp : startswith (strip (oracle (agentMessages (abspath cwd src_path) source)))
        importPytestLit with
    | false =>
      rw [generate_startfail_eq cwd src_path out_dir source oracle fs hr hp] at h
      simp at h
    | true =>
      cases ht : containsSub defTestLit
          (strip (oracle (agentMessages (abspath cwd src_path) source))) with
      | false =>
        rw [generate_substrfail_eq cwd src_path out_dir source oracle fs hr hp ht] at h
        simp at h
      | true =>
        rw [generate_success_eq cwd src_path out_dir source oracle fs hr hp ht] at h
        have hp2 : p = genOutPath cwd src_path out_dir := by
          have := congrArg (fun x => match x with | Except.ok pr => pr.2 | _ => p) h
          simpa using this.symm
        rw [hp2]
        rfl

theorem C10_witness :
    "./test_m.py".toList =
      ospJoin exOut (testFileName ((splitext (basename (abspath exCwd exSrc))).1)) ∧
    testFileName ((splitext (basename "/w/archive.tar.gz".toList)).1) =
      "test_archive.tar.py".toList ∧
    testFileName ((splitext (basename "/w/README".toList)).1) = "test_README.py".toList ∧
    testFileName ((splitext (basename "/w/test_x.py".toList)).1) = "test_test_x.py".toList :=
  C10_module_name_strips_final_extension exCwd exSrc exOut "./test_m.py".toList
    exOracleGood exFS (genOutFS exCwd exSrc exOut exRespGood exFS) (by decide)

/-- C2: the Prompt Builder as coded can never run. The `PROMPT_HEADER`
string literal of prompt_templates.py contains an unescaped inner triple
quote (on the `\"\"\"\n{source}\n\"\"\"` line right after `Source code:`),
so the Python lexer closes the literal there: the parsed literal would not
even contain the `{source}` placeholder, and the first characters after
the early close are a backslash followed by the letter `n` in the middle
of a line, which the lexer rejects (`SyntaxError: unexpected character
after line continuation character`). Importing the module therefore fails
before the builder can substitute anything, contradicting the claim that
it accepts every input and cannot fail. -/
theorem C2_prompt_template_literal_malformed :
    (splitAtTripleQuote PROMPT_HEADER).isSome = true ∧
    containsSub "{source}".toList PROMPT_HEADER = true ∧
    containsSub "{source}".toList pyParsedPromptLiteral = false ∧
    startswith pyAfterPromptLiteral ['\\', 'n'] = true := by
  decide

/-- An environment in which exactly the three `AZURE_OPENAI_*` variables
of agent.py are set (to "x") and every other variable is absent. -/
def env3 : String → Option Str :=
  fun s =>
    if s = "AZURE_OPENAI_ENDPOINT" ∨ s = "AZURE_OPENAI_KEY" ∨ s = "AZURE_OPENAI_DEPLOYMENT"
    then some ("x".toList) else none

/-- An environment variable is required when its absence from the process
environment forces module initialisation to fail. -/
def requiresEnvVar (v : String) : Prop :=
  ∀ env : String → Option Str, env v = none →
    agentModuleInit env = Except.error InitError.configMissing

/-- C3 counterexample: there is no set of four distinct environment
variables that are each required by module initialisation — in `env3`,
where only the three `AZURE_OPENAI_*` variables are set and everything
else is absent, initialisation succeeds, so at most the three variables
read by agent.py can be required, and no fourth required value exists. -/
theorem C3_counterexample_no_fourth_required_variable :
    ¬ ∃ v1 v2 v3 v4 : String,
        (v1 ≠ v2 ∧ v1 ≠ v3 ∧ v1 ≠ v4 ∧ v2 ≠ v3 ∧ v2 ≠ v4 ∧ v3 ≠ v4) ∧
        requiresEnvVar v1 ∧ requiresEnvVar v2 ∧ requiresEnvVar v3 ∧ requiresEnvVar v4 := by
  rintro ⟨v1, v2, v3, v4, ⟨h12, h13, h14, h23, h24, h34⟩, r1, r2, r3, r4⟩
  have key : ∀ v, requiresEnvVar v →
      v = "AZURE_OPENAI_ENDPOINT" ∨ v = "AZURE_OPENAI_KEY" ∨ v = "AZURE_OPENAI_DEPLOYMENT" := by
    intro v hv
    by_contra hnot
    have henv : env3 v = none := by
      unfold env3
      rw [if_neg hnot]
    exact absurd (hv env3 henv) (by decide)
  have m1 := key v1 r1
  have m2 := key v2 r2
  have m3 := key v3 r3
  have m4 := key v4 r4
  rcases m1 with rfl | rfl | rfl <;> rcases m2 with rfl | rfl | rfl <;>
    rcases m3 with rfl | rfl | rfl <;> rcases m4 with rfl | rfl | rfl <;> simp_all

/-- C3 (amended): module initialisation of agent.py requires the three
environment values `AZURE_OPENAI_ENDPOINT`, `AZURE_OPENAI_KEY` and
`AZURE_OPENAI_DEPLOYMENT`; if any one of them is absent, initialisation
fails with the configuration `RuntimeError`, before any invocation of the
Test Generator can occur. -/
theorem C3_missing_any_of_three_env_vars_fails_init (env : String → Option Str)
    (h : env "AZURE_OPENAI_ENDPOINT" = none ∨ env "AZURE_OPENAI_KEY" = none ∨
      env "AZURE_OPENAI_DEPLOYMENT" = none) :
    agentModuleInit env = Except.error InitError.configMissing := by
  rcases h with h | h | h <;> simp [agentModuleInit, h, pyTruthyStr]

theorem C3_witness :
    agentModuleInit (fun _ => none) = Except.error InitError.configMissing :=
  C3_missing_any_of_three_env_vars_fails_init (fun _ => none) (Or.inl rfl)
